import Mathlib

/-!
# Dialogflow fulfillment webhook (`webhook.go`)

A shallow embedding of `webhook.go`: the request/response envelope, the two
static intent handlers, the weather intent handler with its two helpers
`detectLanguage` and `translateText`, `handleError` and the HTTP entry point
`HandleWebhookRequest`.

Conventions of the embedding.

* A Go `error` is represented by its message (`err.Error()`), a Go result pair
  `(v, err)` by a pair whose second component is `Option String` (`none` is
  `nil`).  Library calls whose value is meaningless on failure are `Except`.
* Everything the code obtains from outside (HTTP, the translation client, the
  JSON codec, `strconv`, `language`) is a field of `Env`.  Calls that leave the
  process are recorded, in order, in a list of `Call`s, and the answer of the
  outside world may depend on everything that was called before.
* `log.Fatal` ends the process and an out-of-range index panics; both are
  outcomes of a run (`Run.fatal`, `Run.panic`), distinct from returning.
* `log.Printf` and `fmt.Printf` only write diagnostics to the standard streams
  and are left out, as are the deferred `Close` calls.
-/

namespace Webhook

/-! ## Data model (lines 16–73) -/

structure intent where
  DisplayName : String
deriving DecidableEq

structure location where
  City : String
deriving DecidableEq

structure parameters where
  Location : location
deriving DecidableEq

structure queryResult where
  Intent : intent
  Parameters : parameters
deriving DecidableEq

structure text where
  Text : List String
deriving DecidableEq

structure message where
  Text : text
deriving DecidableEq

/-- Coordinates of a geocoder hit; `F` stands for Go's `float64`. -/
structure locationMessages (F : Type) where
  Lat : F
  Lon : F

structure weather where
  Main : String
  Description : String
deriving DecidableEq

structure weatherResponse where
  Weather : List weather
deriving DecidableEq

structure webhookRequest where
  Session : String
  ResponseID : String
  QueryResult : queryResult
deriving DecidableEq

structure webhookResponse where
  FulfillmentMessages : List message
deriving DecidableEq

/-! ## The outside world -/

/-- The `translate.Detection` value; only its `Language` field is read.  `Tag`
stands for `language.Tag`. -/
structure Detection (Tag : Type) where
  Language : Tag

/-- The `translate.Translation` value; only its `Text` field is read. -/
structure Translation where
  Text : String
deriving DecidableEq

/-- An `*http.Response`, reduced to what `io.ReadAll(resp.Body)` yields. -/
structure Response where
  Body : Except String String

/-- Calls that leave the process, as recorded in the history of a run. -/
inductive Call (Tag : Type) where
  | httpGet (url : String)
  | newClient
  | detectLanguage (text : String)
  | translate (lang : Tag) (text : String)
  | encode (response : webhookResponse)

/-- The library functions and external services `webhook.go` relies on.  The
services receive the history of calls made so far, so that the same call may
be answered differently at different times. -/
structure Env (F Tag : Type) where
  /-- The result of `json.NewDecoder(r.Body).Decode(&request)` on a body. -/
  decodeRequest : String → Except String webhookRequest
  /-- The function `http.Get`. -/
  httpGet : List (Call Tag) → String → Except String Response
  /-- The call `json.Unmarshal(body, &locationmessages)`. -/
  unmarshalLocations : String → Except String (List (locationMessages F))
  /-- The call `json.Unmarshal(body_w, &weatherresponse)`. -/
  unmarshalWeather : String → Except String weatherResponse
  /-- The call `strconv.FormatFloat(x, 'f', -1, 32)`. -/
  formatFloat : F → String
  /-- The method `language.Tag.String`. -/
  tagString : Tag → String
  /-- The function `language.Parse`. -/
  languageParse : String → Except String Tag
  /-- The error of `translate.NewClient(ctx)`, `none` when a client is made. -/
  newClient : List (Call Tag) → Option String
  /-- The method `client.DetectLanguage(ctx, []string{text})`. -/
  detect : List (Call Tag) → String → Except String (List (List (Detection Tag)))
  /-- The method `client.Translate(ctx, []string{text}, lang, nil)`. -/
  translate : List (Call Tag) → Tag → String → Except String (List Translation)
  /-- The order in which `range maps` visits the entries of the map. -/
  rangeOrder : List (String × String)
  /-- The error of `json.NewEncoder(w).Encode(&response)`, `none` when the
  response was written to the carrier. -/
  encode : List (Call Tag) → webhookResponse → Option String

/-- A runtime panic. -/
inductive Panic where
  | indexOutOfRange (index length : Nat)
  | nilDereference
deriving DecidableEq

/-- How a run ends: it returns, `log.Fatal` ends the process with the given
message, or the goroutine panics. -/
inductive Run (α : Type) where
  | ret (a : α)
  | fatal (msg : String)
  | panic (p : Panic)

/-- A computation that extends the call history and ends in a `Run`. -/
def Exec (Tag α : Type) : Type := List (Call Tag) → Run α × List (Call Tag)

/-- Return of a value without any call. -/
def Exec.ret {Tag α : Type} (a : α) : Exec Tag α := fun tr => (Run.ret a, tr)

/-- Sequencing: the rest runs only when the first part returned. -/
def Exec.andThen {Tag α β : Type} (x : Exec Tag α) (f : α → Exec Tag β) : Exec Tag β :=
  fun tr =>
    match x tr with
    | (Run.ret a, tr1) => f a tr1
    | (Run.fatal m, tr1) => (Run.fatal m, tr1)
    | (Run.panic p, tr1) => (Run.panic p, tr1)

instance {Tag : Type} : Monad (Exec Tag) where
  pure := Exec.ret
  bind := Exec.andThen

/-- A step that always returns, given as a function on the call history. -/
def Exec.step {Tag α : Type} (f : List (Call Tag) → α × List (Call Tag)) : Exec Tag α :=
  fun tr => (Run.ret (f tr).1, (f tr).2)

/-- The call `log.Fatal(err)`. -/
def log_Fatal {Tag α : Type} (err : String) : Exec Tag α := fun tr => (Run.fatal err, tr)

/-- The Go idiom `if err != nil { log.Fatal(err) }` on a library result. -/
def orFatal {Tag α : Type} : Except String α → Exec Tag α
  | Except.ok a => Exec.ret a
  | Except.error err => log_Fatal err

/-- The Go idiom `if err != nil { log.Fatal(err) }` on an error value. -/
def fatalIf {Tag : Type} : Option String → Exec Tag Unit
  | none => Exec.ret ()
  | some err => log_Fatal err

/-- The slice index expression `xs[i]`, which panics out of range. -/
def index {Tag α : Type} (xs : List α) (i : Nat) : Exec Tag α :=
  match xs.get? i with
  | some x => Exec.ret x
  | none => fun tr => (Run.panic (Panic.indexOutOfRange i xs.length), tr)

/-- The dereference of a pointer, which panics on `nil`. -/
def deref {Tag α : Type} : Option α → Exec Tag α
  | some a => Exec.ret a
  | none => fun tr => (Run.panic Panic.nilDereference, tr)

/-- The call `http.Get(url)`, recorded in the history. -/
def http_Get {F Tag : Type} (env : Env F Tag) (url : String) :
    Exec Tag (Except String Response) :=
  fun tr => (Run.ret (env.httpGet tr url), tr ++ [Call.httpGet url])

/-- The call `io.ReadAll(resp.Body)`. -/
def io_ReadAll (resp : Response) : Except String String := resp.Body

/-! ## `detectLanguage` (lines 75–92) -/

def detectLanguage {F Tag : Type} (env : Env F Tag) (text : String)
    (tr : List (Call Tag)) : (Option (Detection Tag) × Option String) × List (Call Tag) :=
  match env.newClient tr with
  | some err => ((none, some ("translate.NewClient: " ++ err)), tr ++ [Call.newClient])
  | none =>
    let tr1 := tr ++ [Call.newClient]
    match env.detect tr1 text with
    | Except.error err =>
      ((none, some ("DetectLanguage: " ++ err)), tr1 ++ [Call.detectLanguage text])
    | Except.ok lang =>
      match lang with
      | [] => ((none, some "DetectLanguage return value empty"), tr1 ++ [Call.detectLanguage text])
      | [] :: _ =>
        ((none, some "DetectLanguage return value empty"), tr1 ++ [Call.detectLanguage text])
      | (d :: _) :: _ => ((some d, none), tr1 ++ [Call.detectLanguage text])

/-! ## `translateText` (lines 94–118) -/

def translateText {F Tag : Type} (env : Env F Tag) (targetLanguage text : String)
    (tr : List (Call Tag)) : (String × Option String) × List (Call Tag) :=
  match env.languageParse targetLanguage with
  | Except.error err => (("", some ("language.Parse: " ++ err)), tr)
  | Except.ok lang =>
    match env.newClient tr with
    | some err => (("", some err), tr ++ [Call.newClient])
    | none =>
      let tr1 := tr ++ [Call.newClient]
      match env.translate tr1 lang text with
      | Except.error err => (("", some ("Translate: " ++ err)), tr1 ++ [Call.translate lang text])
      | Except.ok resp =>
        match resp with
        | [] =>
          (("", some ("Translate returned empty response to text: " ++ text)),
            tr1 ++ [Call.translate lang text])
        | r :: _ => ((r.Text, none), tr1 ++ [Call.translate lang text])

/-! ## The static handlers (lines 120–146) -/

def welcome (_request : webhookRequest) : webhookResponse × Option String :=
  let response : webhookResponse :=
    { FulfillmentMessages := [{ Text := { Text := ["Welcome from Dialogflow Go Webhook"] } }] }
  (response, none)

def getAgentName (_request : webhookRequest) : webhookResponse × Option String :=
  let response : webhookResponse :=
    { FulfillmentMessages := [{ Text := { Text := ["My name is Dialogflow Go Webhook"] } }] }
  (response, none)

/-! ## `weatherQuery` (lines 148–224) -/

/-- The map literal of line 177. -/
def maps : List (String × String) := [("en", "en"), ("zh-CN", "zh_cn")]

/-- The loop of lines 187–191 over the entries in the order they are visited:
`if k == textString { lang = v }`. -/
def rangeLoop (order : List (String × String)) (textString lang : String) : String :=
  order.foldl (fun lang kv => if kv.1 = textString then kv.2 else lang) lang

def weatherQuery {F Tag : Type} (env : Env F Tag) (request : webhookRequest) :
    Exec Tag (webhookResponse × Option String) := do
  let api_key := "xxxxxxxxxxx"
  let city := request.QueryResult.Parameters.Location.City
  let url := "http://api.openweathermap.org/geo/1.0/direct?q=" ++ city ++ "&limit=1&appid=" ++ api_key
  let resp ← orFatal (← http_Get env url)
  let body ← orFatal (io_ReadAll resp)
  let locationmessages ← orFatal (env.unmarshalLocations body)
  let lat := (← index locationmessages 0).Lat
  let lon := (← index locationmessages 0).Lon
  let lang := "en"
  let (language, err) ← Exec.step (detectLanguage env city)
  fatalIf err
  let tag := (← deref language).Language
  let textString := env.tagString tag
  let lang := rangeLoop env.rangeOrder textString lang
  let url_weather := "https://api.openweathermap.org/data/2.5/weather?lat=" ++ env.formatFloat lat
    ++ "&lon=" ++ env.formatFloat lon ++ "&appid=" ++ api_key ++ "&lang=" ++ lang
  let resp_w ← orFatal (← http_Get env url_weather)
  let body_w ← orFatal (io_ReadAll resp_w)
  let weatherresponse ← orFatal (env.unmarshalWeather body_w)
  let (sayCurrentcity, _) ← Exec.step (translateText env textString "Current city is ")
  let (sayMain, _) ← Exec.step (translateText env textString "Main")
  let (sayDescription, _) ← Exec.step (translateText env textString "Description")
  let (sayWeatherMain, _) ←
    Exec.step (translateText env textString (← index weatherresponse.Weather 0).Main)
  let response : webhookResponse :=
    { FulfillmentMessages :=
        [{ Text := { Text := [sayCurrentcity ++ city ++ sayMain ++ sayWeatherMain
            ++ sayDescription ++ (← index weatherresponse.Weather 0).Description] } }] }
  return (response, none)

/-! ## `handleError` and `HandleWebhookRequest` (lines 226–267) -/

/-- What is written to the body of the carrier: text, or a value through the
JSON encoder. -/
inductive Written where
  | text (s : String)
  | json (v : webhookResponse)
deriving DecidableEq

/-- The state of an `http.ResponseWriter`: the status sent with the header, if
the header was sent, and the writes to the body in order. -/
structure ResponseWriter where
  status : Option Nat
  body : List Written
deriving DecidableEq

/-- The method `w.WriteHeader(code)`; a second header is ignored. -/
def ResponseWriter.WriteHeader (w : ResponseWriter) (code : Nat) : ResponseWriter :=
  match w.status with
  | some _ => w
  | none => { w with status := some code }

/-- A write to the body; it sends the header with status 200 if none was sent. -/
def ResponseWriter.Write (w : ResponseWriter) (x : Written) : ResponseWriter :=
  { status := some (w.status.getD 200), body := w.body ++ [x] }

/-- The constant `http.StatusInternalServerError`. -/
def StatusInternalServerError : Nat := 500

def handleError (w : ResponseWriter) (err : String) : ResponseWriter :=
  (w.WriteHeader StatusInternalServerError).Write (Written.text ("ERROR: " ++ err))

/-- The three functions called by the switch of `HandleWebhookRequest`. -/
structure Handlers (Tag : Type) where
  welcome : webhookRequest → Exec Tag (webhookResponse × Option String)
  getAgentName : webhookRequest → Exec Tag (webhookResponse × Option String)
  weatherQuery : webhookRequest → Exec Tag (webhookResponse × Option String)

/-- The switch of lines 246–255, with the callees of its three cases taken
from `hs`.  `response` and `err` start as zero values. -/
def dispatchWith {Tag : Type} (hs : Handlers Tag) (request : webhookRequest) :
    Exec Tag (webhookResponse × Option String) :=
  let intent := request.QueryResult.Intent.DisplayName
  if intent = "Default Welcome Intent" then hs.welcome request
  else if intent = "get-agent-name" then hs.getAgentName request
  else if intent = "weather" then hs.weatherQuery request
  else Exec.ret ({ FulfillmentMessages := [] }, some ("Unknown intent: " ++ intent))

/-- The result of serving one request: how the handler ended, what it wrote to
the carrier, and the calls made. -/
structure Served (Tag : Type) where
  outcome : Run Unit
  w : ResponseWriter
  calls : List (Call Tag)

/-- The body of `HandleWebhookRequest` over the handlers `hs`; `r` is the
request body and `tr` the calls made before the request arrived. -/
def HandleWebhookRequestWith {F Tag : Type} (hs : Handlers Tag) (env : Env F Tag)
    (w : ResponseWriter) (r : String) (tr : List (Call Tag)) : Served Tag :=
  match env.decodeRequest r with
  | Except.error err => ⟨Run.ret (), handleError w err, tr⟩
  | Except.ok request =>
    match dispatchWith hs request tr with
    | (Run.fatal m, tr1) => ⟨Run.fatal m, w, tr1⟩
    | (Run.panic p, tr1) => ⟨Run.panic p, w, tr1⟩
    | (Run.ret (_, some err), tr1) => ⟨Run.ret (), handleError w err, tr1⟩
    | (Run.ret (response, none), tr1) =>
      match env.encode tr1 response with
      | some err => ⟨Run.ret (), handleError w err, tr1 ++ [Call.encode response]⟩
      | none => ⟨Run.ret (), w.Write (Written.json response), tr1 ++ [Call.encode response]⟩

/-- The handlers named in the source. -/
def handlers {F Tag : Type} (env : Env F Tag) : Handlers Tag where
  welcome := fun request => Exec.ret (welcome request)
  getAgentName := fun request => Exec.ret (getAgentName request)
  weatherQuery := weatherQuery env

/-- The switch of lines 246–255. -/
def dispatch {F Tag : Type} (env : Env F Tag) (request : webhookRequest) :
    Exec Tag (webhookResponse × Option String) :=
  dispatchWith (handlers env) request

def HandleWebhookRequest {F Tag : Type} (env : Env F Tag) (w : ResponseWriter) (r : String)
    (tr : List (Call Tag)) : Served Tag :=
  HandleWebhookRequestWith (handlers env) env w r tr

/-! ## Stubbed worlds used to run the code on concrete inputs -/

/-- A request with the given display name and city. -/
def mkRequest (displayName city : String) : webhookRequest :=
  { Session := "", ResponseID := "",
    QueryResult := { Intent := { DisplayName := displayName },
                     Parameters := { Location := { City := city } } } }

/-- A world in which coordinates and language tags are strings, every body
decodes to `request`, the geocoder answers `hits`, the detector `detections`,
the weather service `readings`, and a translation request for `text` is
answered by `t text`. -/
def stub (request : webhookRequest) (hits : List (locationMessages String))
    (detections : Except String (List (List (Detection String))))
    (readings : List weather) (t : String → Except String (List Translation)) :
    Env String String where
  decodeRequest := fun _ => Except.ok request
  httpGet := fun _ url => Except.ok { Body := Except.ok url }
  unmarshalLocations := fun _ => Except.ok hits
  unmarshalWeather := fun _ => Except.ok { Weather := readings }
  formatFloat := fun x => x
  tagString := fun tag => tag
  languageParse := fun s => Except.ok s
  newClient := fun _ => none
  detect := fun _ _ => detections
  translate := fun _ _ text => t text
  rangeOrder := maps
  encode := fun _ _ => none

/-- The request of the weather scenarios: intent `weather`, city `Paris`. -/
def parisRequest : webhookRequest := mkRequest "weather" "Paris"

/-- A translation service that answers with the text it was given. -/
def identityTranslator (s : String) : Except String (List Translation) :=
  Except.ok [{ Text := s }]

/-- A translation service that appends a star to the text it was given. -/
def starTranslator (s : String) : Except String (List Translation) :=
  Except.ok [{ Text := s ++ "*" }]

/-- The Paris scenario: one geocoder hit, the detected tag `detected`, the
readings `readings` and the translation service `t`. -/
def parisEnv (detected : String) (readings : List weather)
    (t : String → Except String (List Translation)) : Env String String :=
  stub parisRequest [{ Lat := "48.85", Lon := "2.35" }]
    (Except.ok [[{ Language := detected }]]) readings t

/-- The Paris scenario with the map visited in the opposite order. -/
def parisEnvReversed (detected : String) (readings : List weather)
    (t : String → Except String (List Translation)) : Env String String :=
  { parisEnv detected readings t with rangeOrder := maps.reverse }

/-- The Paris scenario in which `translate.NewClient` succeeds for the
detection and fails from the fifth external call on, that is for every
translation. -/
def parisEnvNoTranslator : Env String String :=
  { parisEnv "en" [{ Main := "Clouds", Description := "overcast clouds" }] identityTranslator with
    newClient := fun tr => if tr.length < 4 then none else some "no credentials" }

/-- What a call of `translateText` contributes to the sentence when its error
is dropped: the translated text, and the empty string if it failed. -/
def fragment (r : String × Option String) : String :=
  match r.2 with
  | none => r.1
  | some _ => ""

/-- A writer to which nothing has been written. -/
def freshWriter : ResponseWriter := { status := none, body := [] }

/-- The URL of the geocoder request of line 152. -/
def geoUrl (city : String) : String :=
  "http://api.openweathermap.org/geo/1.0/direct?q=" ++ city ++ "&limit=1&appid=" ++ "xxxxxxxxxxx"

/-- The URL of the weather request of line 192, up to the language. -/
def weatherUrl (lat lon lang : String) : String :=
  "https://api.openweathermap.org/data/2.5/weather?lat=" ++ lat ++ "&lon=" ++ lon
    ++ "&appid=" ++ "xxxxxxxxxxx" ++ "&lang=" ++ lang

/-- The language-code rule stated for the weather request: the two recognised
tags, and English for every other tag. -/
def weatherLang (textString : String) : String :=
  if textString = "en" then "en" else if textString = "zh-CN" then "zh_cn" else "en"

end Webhook

/-! ## Theorems -/

namespace Webhook

/-- When the geocoder gave a hit, detection gave a tag and the weather service
gave a reading, `weatherQuery` returns the sentence assembled from the four
calls of `translateText`, and no error. -/
theorem weatherQuery_returns {F Tag : Type} (env : Env F Tag) (request : webhookRequest)
    (tr tr2 : List (Call Tag)) (body body_w : String) (hit : locationMessages F)
    (hits : List (locationMessages F)) (d : Detection Tag) (reading : weather)
    (readings : List weather)
    (hgeo : env.httpGet tr (geoUrl request.QueryResult.Parameters.Location.City)
      = Except.ok { Body := Except.ok body })
    (hhits : env.unmarshalLocations body = Except.ok (hit :: hits))
    (hdet : detectLanguage env request.QueryResult.Parameters.Location.City
      (tr ++ [Call.httpGet (geoUrl request.QueryResult.Parameters.Location.City)])
      = ((some d, none), tr2))
    (hget : env.httpGet tr2 (weatherUrl (env.formatFloat hit.Lat) (env.formatFloat hit.Lon)
        (rangeLoop env.rangeOrder (env.tagString d.Language) "en"))
      = Except.ok { Body := Except.ok body_w })
    (hread : env.unmarshalWeather body_w = Except.ok { Weather := reading :: readings }) :
    weatherQuery env request tr =
      (let city := request.QueryResult.Parameters.Location.City
       let ts := env.tagString d.Language
       let r1 := translateText env ts "Current city is "
         (tr2 ++ [Call.httpGet (weatherUrl (env.formatFloat hit.Lat) (env.formatFloat hit.Lon)
            (rangeLoop env.rangeOrder ts "en"))])
       let r2 := translateText env ts "Main" r1.2
       let r3 := translateText env ts "Description" r2.2
       let r4 := translateText env ts reading.Main r3.2
       (Run.ret ({ FulfillmentMessages := [{ Text := { Text :=
          [r1.1.1 ++ city ++ r2.1.1 ++ r4.1.1 ++ r3.1.1 ++ reading.Description] } }] }, none),
        r4.2)) := by
  simp only [geoUrl, weatherUrl] at hgeo hdet hget
  simp [weatherQuery, bind, Exec.andThen, http_Get, orFatal, io_ReadAll, index, Exec.step,
    fatalIf, deref, Exec.ret, pure, hgeo, hhits, hdet, hget, hread, geoUrl, weatherUrl]

/-- A sequence returns exactly when its first part returns and the rest returns
from there. -/
theorem andThen_ret_iff {Tag α β : Type} (x : Exec Tag α) (f : α → Exec Tag β)
    (tr tr1 : List (Call Tag)) (b : β) :
    (x >>= f) tr = (Run.ret b, tr1) ↔ ∃ a tr0, x tr = (Run.ret a, tr0) ∧ f a tr0 = (Run.ret b, tr1) := by
  show Exec.andThen x f tr = _ ↔ _
  unfold Exec.andThen
  rcases hx : x tr with ⟨r, tr0⟩
  cases r with
  | ret a =>
    constructor
    · intro h
      exact ⟨a, tr0, rfl, h⟩
    · rintro ⟨a1, tr2, h1, h2⟩
      simp only [Prod.mk.injEq, Run.ret.injEq] at h1
      obtain ⟨rfl, rfl⟩ := h1
      exact h2
  | fatal m => simp
  | panic q => simp

/-- What a step that always returns returns. -/
theorem step_ret_iff {Tag α : Type} (f : List (Call Tag) → α × List (Call Tag))
    (tr tr1 : List (Call Tag)) (a : α) :
    Exec.step f tr = (Run.ret a, tr1) ↔ a = (f tr).1 ∧ tr1 = (f tr).2 := by
  simp [Exec.step, eq_comm]

/-- What `http_Get` returns, and the call it records. -/
theorem http_Get_ret_iff {F Tag : Type} (env : Env F Tag) (url : String) (tr tr1 : List (Call Tag))
    (a : Except String Response) :
    http_Get env url tr = (Run.ret a, tr1) ↔ a = env.httpGet tr url ∧ tr1 = tr ++ [Call.httpGet url] := by
  simp [http_Get, eq_comm]

/-- The idiom `orFatal` returns exactly on a result without error. -/
theorem orFatal_ret_iff {Tag α : Type} (e : Except String α) (tr tr1 : List (Call Tag)) (a : α) :
    orFatal e tr = (Run.ret a, tr1) ↔ e = Except.ok a ∧ tr1 = tr := by
  cases e <;> simp [orFatal, Exec.ret, log_Fatal, eq_comm]

/-- The idiom `fatalIf` returns exactly on a nil error. -/
theorem fatalIf_ret_iff {Tag : Type} (e : Option String) (tr tr1 : List (Call Tag)) (u : Unit) :
    fatalIf e tr = (Run.ret u, tr1) ↔ e = none ∧ tr1 = tr := by
  cases e <;> simp [fatalIf, Exec.ret, log_Fatal, eq_comm]

/-- The index expression `xs[0]` returns exactly the head of a non-empty list. -/
theorem index_zero_ret_iff {Tag α : Type} (xs : List α) (tr tr1 : List (Call Tag)) (a : α) :
    index xs 0 tr = (Run.ret a, tr1) ↔ (∃ rest, xs = a :: rest) ∧ tr1 = tr := by
  cases xs <;> simp [index, Exec.ret, eq_comm]

/-- A dereference returns exactly on a pointer that is not nil. -/
theorem deref_ret_iff {Tag α : Type} (p : Option α) (tr tr1 : List (Call Tag)) (a : α) :
    deref p tr = (Run.ret a, tr1) ↔ p = some a ∧ tr1 = tr := by
  cases p <;> simp [deref, Exec.ret, eq_comm]

/-- If `weatherQuery` returns, then the geocoder gave a hit, detection gave a
tag and the weather service gave a reading. -/
theorem weatherQuery_ret_inv {F Tag : Type} (env : Env F Tag) (request : webhookRequest)
    (tr tr1 : List (Call Tag)) (response : webhookResponse) (err : Option String)
    (h : weatherQuery env request tr = (Run.ret (response, err), tr1)) :
    ∃ (body body_w : String) (hit : locationMessages F) (hits : List (locationMessages F))
      (d : Detection Tag) (tr2 : List (Call Tag)) (reading : weather) (readings : List weather),
      env.httpGet tr (geoUrl request.QueryResult.Parameters.Location.City)
        = Except.ok { Body := Except.ok body }
      ∧ env.unmarshalLocations body = Except.ok (hit :: hits)
      ∧ detectLanguage env request.QueryResult.Parameters.Location.City
          (tr ++ [Call.httpGet (geoUrl request.QueryResult.Parameters.Location.City)])
          = ((some d, none), tr2)
      ∧ env.httpGet tr2 (weatherUrl (env.formatFloat hit.Lat) (env.formatFloat hit.Lon)
          (rangeLoop env.rangeOrder (env.tagString d.Language) "en"))
          = Except.ok { Body := Except.ok body_w }
      ∧ env.unmarshalWeather body_w = Except.ok { Weather := reading :: readings } := by
  simp only [weatherQuery, andThen_ret_iff, orFatal_ret_iff, fatalIf_ret_iff, index_zero_ret_iff,
    deref_ret_iff, http_Get_ret_iff, step_ret_iff, io_ReadAll] at h
  obtain ⟨_, _, ⟨rfl, rfl⟩, resp, _, ⟨hgeo, rfl⟩, body, _, ⟨hbody, rfl⟩, locs, _, ⟨hlocs, rfl⟩,
    hit, _, ⟨⟨hits, rfl⟩, rfl⟩, hit1, _, ⟨⟨hits1, hsame⟩, rfl⟩, _, _, ⟨rfl, rfl⟩, _, _,
    ⟨herr, rfl⟩, d, _, ⟨hd, rfl⟩, _, _, ⟨rfl, rfl⟩, resp_w, _, ⟨hget, rfl⟩, body_w, _,
    ⟨hbody_w, rfl⟩, wr, _, ⟨hwr, rfl⟩, _, _, ⟨rfl, rfl⟩, _, _, ⟨rfl, rfl⟩, _, _, ⟨rfl, rfl⟩,
    reading, _, ⟨⟨readings, hreadings⟩, rfl⟩, _⟩ := h
  cases hsame
  obtain ⟨rbody⟩ := resp
  obtain ⟨rbody_w⟩ := resp_w
  obtain ⟨readings0⟩ := wr
  simp only at hbody hbody_w hreadings
  subst hbody hbody_w hreadings
  exact ⟨body, body_w, hit, hits, d, _, reading, readings, hgeo, hlocs,
    Prod.ext (Prod.ext hd herr) rfl, hget, hwr⟩

/-- In whatever order the two entries of the map are visited, the loop computes
`weatherLang`. -/
theorem rangeLoop_of_perm (order : List (String × String)) (textString : String)
    (h : order.Perm maps) : rangeLoop order textString "en" = weatherLang textString := by
  have hlen : order.length = 2 := h.length_eq
  have hnd : order.Nodup := h.nodup_iff.mpr (by decide)
  match order, hlen, h, hnd with
  | [x, y], _, h, hnd =>
    have hx : x ∈ maps := h.subset (List.mem_cons_self _ _)
    have hy : y ∈ maps := h.subset (List.mem_cons_of_mem _ (List.mem_cons_self _ _))
    simp only [maps, List.mem_cons, List.mem_singleton, List.not_mem_nil, or_false] at hx hy
    have hne : ("en" : String) ≠ "zh-CN" := by decide
    rcases hx with rfl | rfl <;> rcases hy with rfl | rfl
    · simp at hnd
    · simp only [rangeLoop, weatherLang, List.foldl]
      by_cases h1 : "en" = textString
      · subst h1; simp
      · have h1b : ¬ textString = "en" := fun e => h1 e.symm
        by_cases h2 : "zh-CN" = textString
        · subst h2; simp
        · have h2b : ¬ textString = "zh-CN" := fun e => h2 e.symm
          simp [h1, h2, h1b, h2b]
    · simp only [rangeLoop, weatherLang, List.foldl]
      by_cases h1 : "en" = textString
      · subst h1; simp
      · have h1b : ¬ textString = "en" := fun e => h1 e.symm
        by_cases h2 : "zh-CN" = textString
        · subst h2; simp
        · have h2b : ¬ textString = "zh-CN" := fun e => h2 e.symm
          simp [h1, h2, h1b, h2b]
    · simp at hnd

/-- A call of `translateText` appends to the history, and only client
constructions and translation requests for its text. -/
theorem translateText_extends {F Tag : Type} (env : Env F Tag) (targetLanguage text : String)
    (tr : List (Call Tag)) :
    ∃ rest, (translateText env targetLanguage text tr).2 = tr ++ rest
      ∧ ∀ c ∈ rest, c = Call.newClient ∨ ∃ lang, c = Call.translate lang text := by
  unfold translateText
  split
  · exact ⟨[], by simp⟩
  · split
    · exact ⟨[Call.newClient], by simp⟩
    · rename_i lang _ _ _
      simp only
      split
      · exact ⟨[Call.newClient, Call.translate lang text], by simp⟩
      · split
        · exact ⟨[Call.newClient, Call.translate lang text], by simp⟩
        · exact ⟨[Call.newClient, Call.translate lang text], by simp⟩

/-- A call of `detectLanguage` appends to the history, and only client
constructions and detection requests for its text. -/
theorem detectLanguage_extends {F Tag : Type} (env : Env F Tag) (text : String) (tr : List (Call Tag)) :
    ∃ rest, (detectLanguage env text tr).2 = tr ++ rest
      ∧ ∀ c ∈ rest, c = Call.newClient ∨ c = Call.detectLanguage text := by
  unfold detectLanguage
  split
  · exact ⟨[Call.newClient], by simp⟩
  · simp only
    split
    · exact ⟨[Call.newClient, Call.detectLanguage text], by simp⟩
    · split <;> exact ⟨[Call.newClient, Call.detectLanguage text], by simp⟩

/-- After a geocoder hit and a detected tag, the next call of `weatherQuery` is
the weather request, however the run ends. -/
theorem weatherQuery_after_detect {F Tag : Type} (env : Env F Tag) (request : webhookRequest)
    (tr tr2 : List (Call Tag)) (body : String) (hit : locationMessages F)
    (hits : List (locationMessages F)) (d : Detection Tag)
    (hgeo : env.httpGet tr (geoUrl request.QueryResult.Parameters.Location.City)
      = Except.ok { Body := Except.ok body })
    (hhits : env.unmarshalLocations body = Except.ok (hit :: hits))
    (hdet : detectLanguage env request.QueryResult.Parameters.Location.City
      (tr ++ [Call.httpGet (geoUrl request.QueryResult.Parameters.Location.City)])
      = ((some d, none), tr2)) :
    ∃ rest, (weatherQuery env request tr).2 =
      tr2 ++ Call.httpGet (weatherUrl (env.formatFloat hit.Lat) (env.formatFloat hit.Lon)
        (rangeLoop env.rangeOrder (env.tagString d.Language) "en")) :: rest := by
  simp only [geoUrl, weatherUrl] at hgeo hdet ⊢
  simp only [weatherQuery, bind, Exec.andThen, http_Get, orFatal, io_ReadAll, index, Exec.step,
    fatalIf, deref, Exec.ret, pure, hgeo, hhits, hdet, List.get?]
  obtain ⟨rest1, hr1, -⟩ := translateText_extends env (env.tagString d.Language) "Current city is "
    (tr2 ++ [Call.httpGet ("https://api.openweathermap.org/data/2.5/weather?lat="
      ++ env.formatFloat hit.Lat ++ "&lon=" ++ env.formatFloat hit.Lon ++ "&appid="
      ++ "xxxxxxxxxxx" ++ "&lang=" ++ rangeLoop env.rangeOrder (env.tagString d.Language) "en")])
  obtain ⟨rest2, hr2, -⟩ := translateText_extends env (env.tagString d.Language) "Main"
    (translateText env (env.tagString d.Language) "Current city is "
    (tr2 ++ [Call.httpGet ("https://api.openweathermap.org/data/2.5/weather?lat="
      ++ env.formatFloat hit.Lat ++ "&lon=" ++ env.formatFloat hit.Lon ++ "&appid="
      ++ "xxxxxxxxxxx" ++ "&lang=" ++ rangeLoop env.rangeOrder (env.tagString d.Language) "en")])).2
  obtain ⟨rest3, hr3, -⟩ := translateText_extends env (env.tagString d.Language) "Description"
    (translateText env (env.tagString d.Language) "Main"
    (translateText env (env.tagString d.Language) "Current city is "
    (tr2 ++ [Call.httpGet ("https://api.openweathermap.org/data/2.5/weather?lat="
      ++ env.formatFloat hit.Lat ++ "&lon=" ++ env.formatFloat hit.Lon ++ "&appid="
      ++ "xxxxxxxxxxx" ++ "&lang=" ++ rangeLoop env.rangeOrder (env.tagString d.Language) "en")])).2).2
  rcases env.httpGet tr2 ("https://api.openweathermap.org/data/2.5/weather?lat="
      ++ env.formatFloat hit.Lat ++ "&lon=" ++ env.formatFloat hit.Lon ++ "&appid="
      ++ "xxxxxxxxxxx" ++ "&lang=" ++ rangeLoop env.rangeOrder (env.tagString d.Language) "en")
    with e | ⟨rb⟩
  · exact ⟨[], by simp [log_Fatal]⟩
  · rcases rb with e | body_w
    · exact ⟨[], by simp [log_Fatal, Exec.ret]⟩
    · simp only [Exec.ret]
      rcases env.unmarshalWeather body_w with e | ⟨readings⟩
      · exact ⟨[], by simp [log_Fatal]⟩
      · rcases readings with _ | ⟨reading, readings⟩
        · refine ⟨rest1 ++ rest2 ++ rest3, ?_⟩
          simp only [Exec.ret, List.get?]
          rw [hr3, hr2, hr1]
          simp
        · obtain ⟨rest4, hr4, -⟩ := translateText_extends env (env.tagString d.Language)
            reading.Main (translateText env (env.tagString d.Language) "Description"
            (translateText env (env.tagString d.Language) "Main"
            (translateText env (env.tagString d.Language) "Current city is "
            (tr2 ++ [Call.httpGet ("https://api.openweathermap.org/data/2.5/weather?lat="
              ++ env.formatFloat hit.Lat ++ "&lon=" ++ env.formatFloat hit.Lon ++ "&appid="
              ++ "xxxxxxxxxxx" ++ "&lang="
              ++ rangeLoop env.rangeOrder (env.tagString d.Language) "en")])).2).2).2
          refine ⟨rest1 ++ rest2 ++ rest3 ++ rest4, ?_⟩
          simp only [Exec.ret, List.get?]
          rw [hr4, hr3, hr2, hr1]
          simp

/-! ### Dispatch and the static handlers -/

/-- C1: a request whose display name is none of the three recognised names
runs none of the handlers (the result is the same whatever the three callees
are), ends with status 500 and the body `ERROR: Unknown intent: ` followed by
the display name as it was received, and makes no external call. -/
theorem unknown_intent_is_error_500 {F Tag : Type} (env : Env F Tag) (w : ResponseWriter) (r : String)
    (tr : List (Call Tag)) (request : webhookRequest)
    (hdec : env.decodeRequest r = Except.ok request)
    (hfresh : w.status = none)
    (h1 : request.QueryResult.Intent.DisplayName ≠ "Default Welcome Intent")
    (h2 : request.QueryResult.Intent.DisplayName ≠ "get-agent-name")
    (h3 : request.QueryResult.Intent.DisplayName ≠ "weather") :
    (∀ hs : Handlers Tag, HandleWebhookRequestWith hs env w r tr =
      { outcome := Run.ret (),
        w := { status := some 500,
               body := w.body ++ [Written.text
                 ("ERROR: Unknown intent: " ++ request.QueryResult.Intent.DisplayName)] },
        calls := tr })
    ∧ HandleWebhookRequest env w r tr =
      { outcome := Run.ret (),
        w := { status := some 500,
               body := w.body ++ [Written.text
                 ("ERROR: Unknown intent: " ++ request.QueryResult.Intent.DisplayName)] },
        calls := tr } := by
  have key : ∀ hs : Handlers Tag, HandleWebhookRequestWith hs env w r tr =
      { outcome := Run.ret (),
        w := { status := some 500,
               body := w.body ++ [Written.text
                 ("ERROR: Unknown intent: " ++ request.QueryResult.Intent.DisplayName)] },
        calls := tr } := by
    intro hs
    simp only [HandleWebhookRequestWith, hdec, dispatchWith, h1, h2, h3, if_false, Exec.ret,
      handleError, ResponseWriter.WriteHeader, ResponseWriter.Write, hfresh,
      StatusInternalServerError, Option.getD_some]
    rw [← String.append_assoc]
    rfl
  exact ⟨key, key (handlers env)⟩

/-- The scenario of C1 with display name `unknown`: status 500 and body
`ERROR: Unknown intent: unknown`. -/
theorem unknown_intent_is_error_500_witness :
    HandleWebhookRequest
      (stub (mkRequest "unknown" "Paris") [] (Except.ok []) [] (fun s => Except.ok [⟨s⟩]))
      freshWriter "" [] =
      { outcome := Run.ret (),
        w := { status := some 500, body := [Written.text "ERROR: Unknown intent: unknown"] },
        calls := [] } :=
  (unknown_intent_is_error_500
    (stub (mkRequest "unknown" "Paris") [] (Except.ok []) [] (fun s => Except.ok [⟨s⟩]))
    freshWriter "" [] (mkRequest "unknown" "Paris") rfl rfl (by decide) (by decide)
    (by decide)).2

/-- C2: for every request `welcome` and `getAgentName` return no error and a
response with exactly one message whose text list is the one literal string;
the result is the same for any two requests. -/
theorem static_handlers_fixed (request other : webhookRequest) :
    welcome request =
        ({ FulfillmentMessages := [{ Text := { Text := ["Welcome from Dialogflow Go Webhook"] } }] },
          none)
    ∧ getAgentName request =
        ({ FulfillmentMessages := [{ Text := { Text := ["My name is Dialogflow Go Webhook"] } }] },
          none)
    ∧ welcome request = welcome other
    ∧ getAgentName request = getAgentName other :=
  ⟨rfl, rfl, rfl, rfl⟩

/-! ### The weather handler -/

/-- C3: when the geocoder gave a hit and detection gave a tag, the request that
follows detection is the weather request whose `lang` is `en` for the tag
`en`, `zh_cn` for the tag `zh-CN` and `en` for every other tag string, in
whatever order the loop visits the two entries of the map. -/
theorem weather_lang_by_tag {F Tag : Type} (env : Env F Tag) (request : webhookRequest)
    (tr tr2 : List (Call Tag)) (body : String) (hit : locationMessages F)
    (hits : List (locationMessages F)) (d : Detection Tag)
    (hperm : env.rangeOrder.Perm maps)
    (hgeo : env.httpGet tr (geoUrl request.QueryResult.Parameters.Location.City)
      = Except.ok { Body := Except.ok body })
    (hhits : env.unmarshalLocations body = Except.ok (hit :: hits))
    (hdet : detectLanguage env request.QueryResult.Parameters.Location.City
      (tr ++ [Call.httpGet (geoUrl request.QueryResult.Parameters.Location.City)])
      = ((some d, none), tr2)) :
    rangeLoop env.rangeOrder (env.tagString d.Language) "en"
        = (if env.tagString d.Language = "en" then "en"
           else if env.tagString d.Language = "zh-CN" then "zh_cn" else "en")
    ∧ ∃ rest, (weatherQuery env request tr).2 =
        tr2 ++ Call.httpGet ("https://api.openweathermap.org/data/2.5/weather?lat="
          ++ env.formatFloat hit.Lat ++ "&lon=" ++ env.formatFloat hit.Lon
          ++ "&appid=" ++ "xxxxxxxxxxx" ++ "&lang="
          ++ (if env.tagString d.Language = "en" then "en"
              else if env.tagString d.Language = "zh-CN" then "zh_cn" else "en")) :: rest := by
  have hloop := rangeLoop_of_perm env.rangeOrder (env.tagString d.Language) hperm
  obtain ⟨rest, hrest⟩ := weatherQuery_after_detect env request tr tr2 body hit hits d hgeo hhits hdet
  rw [hloop] at hrest
  exact ⟨hloop, rest, hrest⟩

/-- The scenario of C3 with the detected tag `zh-TW`, which is not a key of the
map although `zh-CN` is, and the map visited in the opposite order: the
weather request asks for `lang=en`. -/
theorem weather_lang_by_tag_witness :
    rangeLoop maps.reverse "zh-TW" "en" = "en"
    ∧ ∃ rest, (weatherQuery (parisEnvReversed "zh-TW" [] identityTranslator) parisRequest []).2 =
        [Call.httpGet (geoUrl "Paris"), Call.newClient, Call.detectLanguage "Paris"]
          ++ Call.httpGet ("https://api.openweathermap.org/data/2.5/weather?lat=" ++ "48.85"
              ++ "&lon=" ++ "2.35" ++ "&appid=" ++ "xxxxxxxxxxx" ++ "&lang=" ++ "en") :: rest :=
  weather_lang_by_tag (parisEnvReversed "zh-TW" [] identityTranslator) parisRequest []
    [Call.httpGet (geoUrl "Paris"), Call.newClient, Call.detectLanguage "Paris"]
    (geoUrl "Paris") { Lat := "48.85", Lon := "2.35" } [] { Language := "zh-TW" }
    (List.reverse_perm maps) rfl rfl rfl

/-- C4: when the geocoder gave a hit, detection gave a tag and the weather
service gave at least one reading, `weatherQuery` returns, without error, a
response with exactly one message with exactly one string: the translation of
`Current city is `, the city as received, the translation of `Main`, the
translation of the first reading's `main`, the translation of `Description`
and the first reading's `description` as received.  Each translation is what
`translateText` returned, for the detected tag, at that point of the run. -/
theorem weather_sentence {F Tag : Type} (env : Env F Tag) (request : webhookRequest)
    (tr tr2 : List (Call Tag)) (body body_w : String) (hit : locationMessages F)
    (hits : List (locationMessages F)) (d : Detection Tag) (reading : weather)
    (readings : List weather)
    (hgeo : env.httpGet tr (geoUrl request.QueryResult.Parameters.Location.City)
      = Except.ok { Body := Except.ok body })
    (hhits : env.unmarshalLocations body = Except.ok (hit :: hits))
    (hdet : detectLanguage env request.QueryResult.Parameters.Location.City
      (tr ++ [Call.httpGet (geoUrl request.QueryResult.Parameters.Location.City)])
      = ((some d, none), tr2))
    (hget : env.httpGet tr2 (weatherUrl (env.formatFloat hit.Lat) (env.formatFloat hit.Lon)
        (rangeLoop env.rangeOrder (env.tagString d.Language) "en"))
      = Except.ok { Body := Except.ok body_w })
    (hread : env.unmarshalWeather body_w = Except.ok { Weather := reading :: readings }) :
    weatherQuery env request tr =
      (let city := request.QueryResult.Parameters.Location.City
       let t := translateText env (env.tagString d.Language)
       let t1 := t "Current city is "
         (tr2 ++ [Call.httpGet (weatherUrl (env.formatFloat hit.Lat) (env.formatFloat hit.Lon)
            (rangeLoop env.rangeOrder (env.tagString d.Language) "en"))])
       let t2 := t "Main" t1.2
       let t3 := t "Description" t2.2
       let t4 := t reading.Main t3.2
       (Run.ret ({ FulfillmentMessages := [{ Text := { Text :=
          [t1.1.1 ++ city ++ t2.1.1 ++ t4.1.1 ++ t3.1.1 ++ reading.Description] } }] }, none),
        t4.2)) :=
  weatherQuery_returns env request tr tr2 body body_w hit hits d reading readings
    hgeo hhits hdet hget hread

/-- The scenario of C4 with city `Paris`, the tag `en`, the identity as
translation and a second reading that is not used. -/
theorem weather_sentence_witness :
    (weatherQuery (parisEnv "en" [{ Main := "Clouds", Description := "overcast clouds" },
        { Main := "Rain", Description := "light rain" }] identityTranslator) parisRequest []).1 =
      Run.ret ({ FulfillmentMessages := [{ Text := { Text :=
        ["Current city is ParisMainCloudsDescriptionovercast clouds"] } }] }, none) :=
  congrArg Prod.fst
    (weather_sentence (parisEnv "en" [{ Main := "Clouds", Description := "overcast clouds" },
        { Main := "Rain", Description := "light rain" }] identityTranslator) parisRequest []
      [Call.httpGet (geoUrl "Paris"), Call.newClient, Call.detectLanguage "Paris"]
      (geoUrl "Paris") (weatherUrl "48.85" "2.35" "en") { Lat := "48.85", Lon := "2.35" } []
      { Language := "en" } { Main := "Clouds", Description := "overcast clouds" }
      [{ Main := "Rain", Description := "light rain" }] rfl rfl rfl rfl rfl)

/-- On every return of `translateText` with an error the text is empty. -/
theorem translateText_error_text {F Tag : Type} (env : Env F Tag) (targetLanguage text : String)
    (tr : List (Call Tag)) (h : (translateText env targetLanguage text tr).1.2 ≠ none) :
    (translateText env targetLanguage text tr).1.1 = "" := by
  unfold translateText at h ⊢
  rcases hp : env.languageParse targetLanguage with e | lang
  · rfl
  · rcases hc : env.newClient tr with _ | e
    · rcases ht : env.translate (tr ++ [Call.newClient]) lang text with e | resp
      · simp only [ht]
      · rcases resp with _ | ⟨r, rs⟩
        · simp only [ht]
        · simp [hp, hc, ht] at h
    · rfl

/-- Dropping the error of `translateText` loses nothing: its text is already
what the call contributes. -/
theorem fragment_translateText {F Tag : Type} (env : Env F Tag) (targetLanguage text : String)
    (tr : List (Call Tag)) :
    fragment (translateText env targetLanguage text tr).1
      = (translateText env targetLanguage text tr).1.1 := by
  unfold fragment
  split
  · rfl
  · rename_i e he
    exact (translateText_error_text env targetLanguage text tr (by simp [he])).symm

/-- C7: `translateText` returns the empty string whenever it returns an error.
When the geocoder gave a hit, detection gave a tag and the weather service
gave at least one reading, `weatherQuery` returns a response and no error
whatever the four calls of `translateText` return; each call contributes its
text, or the empty string if it failed, and if all four fail the message is
the city followed by the first reading's description. -/
theorem translation_failures_swallowed {F Tag : Type} (env : Env F Tag) (request : webhookRequest)
    (tr tr2 : List (Call Tag)) (body body_w : String) (hit : locationMessages F)
    (hits : List (locationMessages F)) (d : Detection Tag) (reading : weather)
    (readings : List weather)
    (hgeo : env.httpGet tr (geoUrl request.QueryResult.Parameters.Location.City)
      = Except.ok { Body := Except.ok body })
    (hhits : env.unmarshalLocations body = Except.ok (hit :: hits))
    (hdet : detectLanguage env request.QueryResult.Parameters.Location.City
      (tr ++ [Call.httpGet (geoUrl request.QueryResult.Parameters.Location.City)])
      = ((some d, none), tr2))
    (hget : env.httpGet tr2 (weatherUrl (env.formatFloat hit.Lat) (env.formatFloat hit.Lon)
        (rangeLoop env.rangeOrder (env.tagString d.Language) "en"))
      = Except.ok { Body := Except.ok body_w })
    (hread : env.unmarshalWeather body_w = Except.ok { Weather := reading :: readings }) :
    (∀ (targetLanguage text : String) (tr0 : List (Call Tag)),
      (translateText env targetLanguage text tr0).1.2 ≠ none →
        (translateText env targetLanguage text tr0).1.1 = "")
    ∧ (let city := request.QueryResult.Parameters.Location.City
       let t := translateText env (env.tagString d.Language)
       let t1 := t "Current city is "
         (tr2 ++ [Call.httpGet (weatherUrl (env.formatFloat hit.Lat) (env.formatFloat hit.Lon)
            (rangeLoop env.rangeOrder (env.tagString d.Language) "en"))])
       let t2 := t "Main" t1.2
       let t3 := t "Description" t2.2
       let t4 := t reading.Main t3.2
       weatherQuery env request tr =
         (Run.ret ({ FulfillmentMessages := [{ Text := { Text :=
            [fragment t1.1 ++ city ++ fragment t2.1 ++ fragment t4.1 ++ fragment t3.1
              ++ reading.Description] } }] }, none), t4.2)
       ∧ (t1.1.2 ≠ none → t2.1.2 ≠ none → t3.1.2 ≠ none → t4.1.2 ≠ none →
           weatherQuery env request tr =
             (Run.ret ({ FulfillmentMessages := [{ Text := { Text :=
                [city ++ reading.Description] } }] }, none), t4.2))) := by
  refine ⟨fun targetLanguage text tr0 h => translateText_error_text env targetLanguage text tr0 h,
    ?_⟩
  have hret := weatherQuery_returns env request tr tr2 body body_w hit hits d reading readings
    hgeo hhits hdet hget hread
  simp only at hret ⊢
  refine ⟨?_, ?_⟩
  · rw [hret]
    simp only [fragment_translateText]
  · intro h1 h2 h3 h4
    rw [hret, translateText_error_text env _ _ _ h1, translateText_error_text env _ _ _ h2,
      translateText_error_text env _ _ _ h3, translateText_error_text env _ _ _ h4]
    simp

/-- The scenario of C7 in which every call of `translateText` fails because no
client can be made: the message is `Paris` followed by the description. -/
theorem translation_failures_swallowed_witness :
    weatherQuery parisEnvNoTranslator parisRequest [] =
      (Run.ret ({ FulfillmentMessages := [{ Text := { Text := ["Parisovercast clouds"] } }] },
        none),
       [Call.httpGet (geoUrl "Paris"), Call.newClient, Call.detectLanguage "Paris",
        Call.httpGet (weatherUrl "48.85" "2.35" "en"), Call.newClient, Call.newClient,
        Call.newClient, Call.newClient]) :=
  (translation_failures_swallowed parisEnvNoTranslator parisRequest []
    [Call.httpGet (geoUrl "Paris"), Call.newClient, Call.detectLanguage "Paris"]
    (geoUrl "Paris") (weatherUrl "48.85" "2.35" "en") { Lat := "48.85", Lon := "2.35" } []
    { Language := "en" } { Main := "Clouds", Description := "overcast clouds" } []
    rfl rfl rfl rfl rfl).2.2 (by decide) (by decide) (by decide) (by decide)

/-! ### Failures of the weather handler at the HTTP boundary -/

/-- C5: when the geocoder answers with a list that decodes to no hit,
`weatherQuery` indexes the empty list: the run panics with an index out of
range right after the geocoder request, nothing is written to the carrier,
and `HandleWebhookRequest` does not get an error to report. -/
theorem geocode_empty_panics {F Tag : Type} (env : Env F Tag) (w : ResponseWriter) (r : String)
    (tr : List (Call Tag)) (request : webhookRequest) (body : String)
    (hdec : env.decodeRequest r = Except.ok request)
    (hname : request.QueryResult.Intent.DisplayName = "weather")
    (hgeo : env.httpGet tr (geoUrl request.QueryResult.Parameters.Location.City)
      = Except.ok { Body := Except.ok body })
    (hhits : env.unmarshalLocations body = Except.ok []) :
    weatherQuery env request tr =
        (Run.panic (Panic.indexOutOfRange 0 0),
          tr ++ [Call.httpGet (geoUrl request.QueryResult.Parameters.Location.City)])
    ∧ HandleWebhookRequest env w r tr =
        { outcome := Run.panic (Panic.indexOutOfRange 0 0), w := w,
          calls := tr ++ [Call.httpGet (geoUrl request.QueryResult.Parameters.Location.City)] } := by
  have hq : weatherQuery env request tr =
      (Run.panic (Panic.indexOutOfRange 0 0),
        tr ++ [Call.httpGet (geoUrl request.QueryResult.Parameters.Location.City)]) := by
    simp only [geoUrl] at hgeo ⊢
    simp [weatherQuery, bind, Exec.andThen, http_Get, orFatal, io_ReadAll, index, Exec.ret,
      hgeo, hhits]
  refine ⟨hq, ?_⟩
  simp [HandleWebhookRequest, HandleWebhookRequestWith, hdec, dispatchWith, handlers, hname, hq]

/-- The scenario of C5: intent `weather`, city `Paris`, the geocoder answers
with the empty list. -/
theorem geocode_empty_panics_witness :
    HandleWebhookRequest (stub parisRequest [] (Except.ok [[{ Language := "en" }]])
        [{ Main := "Clouds", Description := "overcast clouds" }] identityTranslator)
      freshWriter "" [] =
      { outcome := Run.panic (Panic.indexOutOfRange 0 0), w := { status := none, body := [] },
        calls := [Call.httpGet (geoUrl "Paris")] } :=
  (geocode_empty_panics (stub parisRequest [] (Except.ok [[{ Language := "en" }]])
      [{ Main := "Clouds", Description := "overcast clouds" }] identityTranslator)
    freshWriter "" [] parisRequest (geoUrl "Paris") rfl rfl rfl rfl).2

/-- C6: when the weather service answers with a document that decodes to no
reading, `weatherQuery` indexes the empty sequence: after three calls of
`translateText` the run panics with an index out of range, nothing is
written to the carrier, and `HandleWebhookRequest` does not get an error to
report. -/
theorem weather_empty_panics {F Tag : Type} (env : Env F Tag) (w : ResponseWriter) (r : String)
    (tr tr2 : List (Call Tag)) (request : webhookRequest) (body body_w : String)
    (hit : locationMessages F) (hits : List (locationMessages F)) (d : Detection Tag)
    (hdec : env.decodeRequest r = Except.ok request)
    (hname : request.QueryResult.Intent.DisplayName = "weather")
    (hgeo : env.httpGet tr (geoUrl request.QueryResult.Parameters.Location.City)
      = Except.ok { Body := Except.ok body })
    (hhits : env.unmarshalLocations body = Except.ok (hit :: hits))
    (hdet : detectLanguage env request.QueryResult.Parameters.Location.City
      (tr ++ [Call.httpGet (geoUrl request.QueryResult.Parameters.Location.City)])
      = ((some d, none), tr2))
    (hget : env.httpGet tr2 (weatherUrl (env.formatFloat hit.Lat) (env.formatFloat hit.Lon)
        (rangeLoop env.rangeOrder (env.tagString d.Language) "en"))
      = Except.ok { Body := Except.ok body_w })
    (hread : env.unmarshalWeather body_w = Except.ok { Weather := [] }) :
    (let t := translateText env (env.tagString d.Language)
     let t1 := t "Current city is "
       (tr2 ++ [Call.httpGet (weatherUrl (env.formatFloat hit.Lat) (env.formatFloat hit.Lon)
          (rangeLoop env.rangeOrder (env.tagString d.Language) "en"))])
     let t2 := t "Main" t1.2
     let t3 := t "Description" t2.2
     weatherQuery env request tr = (Run.panic (Panic.indexOutOfRange 0 0), t3.2)
     ∧ HandleWebhookRequest env w r tr =
        { outcome := Run.panic (Panic.indexOutOfRange 0 0), w := w, calls := t3.2 }) := by
  simp only
  have hq : weatherQuery env request tr = (Run.panic (Panic.indexOutOfRange 0 0),
      (translateText env (env.tagString d.Language) "Description"
        (translateText env (env.tagString d.Language) "Main"
          (translateText env (env.tagString d.Language) "Current city is "
            (tr2 ++ [Call.httpGet (weatherUrl (env.formatFloat hit.Lat)
              (env.formatFloat hit.Lon)
              (rangeLoop env.rangeOrder (env.tagString d.Language) "en"))])).2).2).2) := by
    simp only [geoUrl, weatherUrl] at hgeo hdet hget ⊢
    simp [weatherQuery, bind, Exec.andThen, http_Get, orFatal, io_ReadAll, index, Exec.step,
      fatalIf, deref, Exec.ret, hgeo, hhits, hdet, hget, hread]
  refine ⟨hq, ?_⟩
  simp [HandleWebhookRequest, HandleWebhookRequestWith, hdec, dispatchWith, handlers, hname, hq]

/-- The scenario of C6: intent `weather`, city `Paris`, the weather service
answers with no reading. -/
theorem weather_empty_panics_witness :
    HandleWebhookRequest (parisEnv "en" [] identityTranslator) freshWriter "" [] =
      { outcome := Run.panic (Panic.indexOutOfRange 0 0), w := { status := none, body := [] },
        calls := [Call.httpGet (geoUrl "Paris"), Call.newClient, Call.detectLanguage "Paris",
          Call.httpGet (weatherUrl "48.85" "2.35" "en"),
          Call.newClient, Call.translate "en" "Current city is ",
          Call.newClient, Call.translate "en" "Main",
          Call.newClient, Call.translate "en" "Description"] } :=
  (weather_empty_panics (parisEnv "en" [] identityTranslator) freshWriter "" []
    [Call.httpGet (geoUrl "Paris"), Call.newClient, Call.detectLanguage "Paris"]
    parisRequest (geoUrl "Paris") (weatherUrl "48.85" "2.35" "en")
    { Lat := "48.85", Lon := "2.35" } [] { Language := "en" } rfl rfl rfl rfl rfl rfl rfl).2

/-- Every return of `weatherQuery` has a nil error and a response with one
message with one string. -/
theorem weatherQuery_ret_none {F Tag : Type} (env : Env F Tag) (request : webhookRequest)
    (tr tr1 : List (Call Tag)) (response : webhookResponse) (err : Option String)
    (h : weatherQuery env request tr = (Run.ret (response, err), tr1)) :
    err = none ∧ ∃ s : String,
      response = { FulfillmentMessages := [{ Text := { Text := [s] } }] } := by
  obtain ⟨body, body_w, hit, hits, d, tr2, reading, readings, hgeo, hhits, hdet, hget, hread⟩ :=
    weatherQuery_ret_inv env request tr tr1 response err h
  have hret := weatherQuery_returns env request tr tr2 body body_w hit hits d reading readings
    hgeo hhits hdet hget hread
  rw [h] at hret
  simp only [Prod.mk.injEq, Run.ret.injEq] at hret
  obtain ⟨⟨hresp, herr⟩, -⟩ := hret
  exact ⟨herr, _, hresp⟩

/-- The result of `HandleWebhookRequest` on a body that decodes, by the result
of the switch. -/
theorem HandleWebhookRequest_of_dispatch {F Tag : Type} (env : Env F Tag) (w : ResponseWriter) (r : String)
    (tr : List (Call Tag)) (request : webhookRequest)
    (hdec : env.decodeRequest r = Except.ok request) :
    HandleWebhookRequest env w r tr =
      (match dispatch env request tr with
       | (Run.fatal m, tr1) => { outcome := Run.fatal m, w := w, calls := tr1 }
       | (Run.panic p, tr1) => { outcome := Run.panic p, w := w, calls := tr1 }
       | (Run.ret (_, some err), tr1) =>
         { outcome := Run.ret (), w := handleError w err, calls := tr1 }
       | (Run.ret (response, none), tr1) =>
         { outcome := Run.ret (),
           w := (match env.encode tr1 response with
                 | none => w.Write (Written.json response)
                 | some err => handleError w err),
           calls := tr1 ++ [Call.encode response] }) := by
  simp only [HandleWebhookRequest, HandleWebhookRequestWith, hdec, dispatch]
  split
  · rfl
  · rfl
  · rfl
  · rename_i response tr1 _
    cases env.encode tr1 response <;> rfl

/-- C8 as amended: when detection of the city's language fails, `weatherQuery`
hands the error to `log.Fatal`, which ends the process with that message:
`HandleWebhookRequest` writes nothing to the carrier, and after the geocoder
request the only calls made are those of `detectLanguage`, so neither a
weather request nor a translation is made. -/
theorem detect_failure_is_fatal {F Tag : Type} (env : Env F Tag) (w : ResponseWriter) (r : String)
    (tr tr2 : List (Call Tag)) (request : webhookRequest) (body : String)
    (hit : locationMessages F) (hits : List (locationMessages F))
    (language : Option (Detection Tag)) (e : String)
    (hdec : env.decodeRequest r = Except.ok request)
    (hname : request.QueryResult.Intent.DisplayName = "weather")
    (hgeo : env.httpGet tr (geoUrl request.QueryResult.Parameters.Location.City)
      = Except.ok { Body := Except.ok body })
    (hhits : env.unmarshalLocations body = Except.ok (hit :: hits))
    (hdet : detectLanguage env request.QueryResult.Parameters.Location.City
      (tr ++ [Call.httpGet (geoUrl request.QueryResult.Parameters.Location.City)])
      = ((language, some e), tr2)) :
    HandleWebhookRequest env w r tr = { outcome := Run.fatal e, w := w, calls := tr2 }
    ∧ ∃ rest, tr2 = tr ++ [Call.httpGet (geoUrl request.QueryResult.Parameters.Location.City)]
          ++ rest
        ∧ ∀ c ∈ rest, c = Call.newClient
            ∨ c = Call.detectLanguage request.QueryResult.Parameters.Location.City := by
  have hq : weatherQuery env request tr = (Run.fatal e, tr2) := by
    simp only [geoUrl] at hgeo hdet ⊢
    simp [weatherQuery, bind, Exec.andThen, http_Get, orFatal, io_ReadAll, index, Exec.step,
      fatalIf, log_Fatal, Exec.ret, hgeo, hhits, hdet]
  refine ⟨?_, ?_⟩
  · simp [HandleWebhookRequest, HandleWebhookRequestWith, hdec, dispatchWith, handlers, hname, hq]
  · obtain ⟨rest, hrest, hcalls⟩ := detectLanguage_extends env
      request.QueryResult.Parameters.Location.City
      (tr ++ [Call.httpGet (geoUrl request.QueryResult.Parameters.Location.City)])
    rw [hdet] at hrest
    exact ⟨rest, hrest, hcalls⟩

/-- The scenario of C8 in which the provider returns no detection: the
process ends with `DetectLanguage return value empty` and nothing is written. -/
theorem detect_failure_is_fatal_witness :
    HandleWebhookRequest (stub parisRequest [{ Lat := "48.85", Lon := "2.35" }] (Except.ok [])
        [{ Main := "Clouds", Description := "overcast clouds" }] identityTranslator)
      freshWriter "" [] =
      { outcome := Run.fatal "DetectLanguage return value empty",
        w := { status := none, body := [] },
        calls := [Call.httpGet (geoUrl "Paris"), Call.newClient, Call.detectLanguage "Paris"] } :=
  (detect_failure_is_fatal (stub parisRequest [{ Lat := "48.85", Lon := "2.35" }] (Except.ok [])
      [{ Main := "Clouds", Description := "overcast clouds" }] identityTranslator)
    freshWriter "" [] [Call.httpGet (geoUrl "Paris"), Call.newClient, Call.detectLanguage "Paris"]
    parisRequest (geoUrl "Paris") { Lat := "48.85", Lon := "2.35" } [] none
    "DetectLanguage return value empty" rfl rfl rfl rfl rfl).1

/-- C8 as stated fails: with the detector answering with an error,
`detectLanguage` returns the error `DetectLanguage: quota exceeded`, yet the
handler ends in `log.Fatal` and the carrier has no status 500 and no body. -/
theorem detect_failure_not_500 :
    (detectLanguage (stub parisRequest [{ Lat := "48.85", Lon := "2.35" }]
        (Except.error "quota exceeded")
        [{ Main := "Clouds", Description := "overcast clouds" }] identityTranslator)
      "Paris" [Call.httpGet (geoUrl "Paris")]).1 = (none, some "DetectLanguage: quota exceeded")
    ∧ (HandleWebhookRequest (stub parisRequest [{ Lat := "48.85", Lon := "2.35" }]
        (Except.error "quota exceeded")
        [{ Main := "Clouds", Description := "overcast clouds" }] identityTranslator)
      freshWriter "" []).outcome = Run.fatal "DetectLanguage: quota exceeded"
    ∧ (HandleWebhookRequest (stub parisRequest [{ Lat := "48.85", Lon := "2.35" }]
        (Except.error "quota exceeded")
        [{ Main := "Clouds", Description := "overcast clouds" }] identityTranslator)
      freshWriter "" []).w.status ≠ some 500
    ∧ (HandleWebhookRequest (stub parisRequest [{ Lat := "48.85", Lon := "2.35" }]
        (Except.error "quota exceeded")
        [{ Main := "Clouds", Description := "overcast clouds" }] identityTranslator)
      freshWriter "" []).w.body ≠ [Written.text "ERROR: DetectLanguage: quota exceeded"] :=
  ⟨rfl, rfl, by decide, by decide⟩

/-- C9: whenever the switch returns without error, the response it returns,
which is the one `HandleWebhookRequest` hands to the JSON encoder, has exactly
one message with exactly one string. -/
theorem success_response_one_string {F Tag : Type} (env : Env F Tag) (w : ResponseWriter) (r : String)
    (tr tr1 : List (Call Tag)) (request : webhookRequest) (response : webhookResponse)
    (hdec : env.decodeRequest r = Except.ok request)
    (hdisp : dispatch env request tr = (Run.ret (response, none), tr1)) :
    (∃ s : String, response = { FulfillmentMessages := [{ Text := { Text := [s] } }] })
    ∧ HandleWebhookRequest env w r tr =
        { outcome := Run.ret (),
          w := (match env.encode tr1 response with
                | none => w.Write (Written.json response)
                | some err => handleError w err),
          calls := tr1 ++ [Call.encode response] } := by
  refine ⟨?_, ?_⟩
  · simp only [dispatch, dispatchWith, handlers] at hdisp
    split_ifs at hdisp with h1 h2 h3
    · simp only [Exec.ret, welcome, Prod.mk.injEq, Run.ret.injEq, and_true] at hdisp
      exact ⟨_, hdisp.1.symm⟩
    · simp only [Exec.ret, getAgentName, Prod.mk.injEq, Run.ret.injEq, and_true] at hdisp
      exact ⟨_, hdisp.1.symm⟩
    · exact (weatherQuery_ret_none env request tr tr1 response none hdisp).2
    · simp [Exec.ret] at hdisp
  · rw [HandleWebhookRequest_of_dispatch env w r tr request hdec, hdisp]

/-- The scenario of C9 for the weather intent and city `Paris`: the response
handed to the encoder, and written, has one message with one string. -/
theorem success_response_one_string_witness :
    HandleWebhookRequest (parisEnv "en" [{ Main := "Clouds", Description := "overcast clouds" }]
      identityTranslator) freshWriter "" [] =
      { outcome := Run.ret (),
        w := { status := some 200, body := [Written.json { FulfillmentMessages :=
          [{ Text := { Text := ["Current city is ParisMainCloudsDescriptionovercast clouds"] } }] }] },
        calls := [Call.httpGet (geoUrl "Paris"), Call.newClient, Call.detectLanguage "Paris",
          Call.httpGet (weatherUrl "48.85" "2.35" "en"),
          Call.newClient, Call.translate "en" "Current city is ",
          Call.newClient, Call.translate "en" "Main",
          Call.newClient, Call.translate "en" "Description",
          Call.newClient, Call.translate "en" "Clouds",
          Call.encode { FulfillmentMessages :=
            [{ Text := { Text := ["Current city is ParisMainCloudsDescriptionovercast clouds"] } }] }] } :=
  (success_response_one_string (parisEnv "en"
      [{ Main := "Clouds", Description := "overcast clouds" }] identityTranslator)
    freshWriter "" []
    [Call.httpGet (geoUrl "Paris"), Call.newClient, Call.detectLanguage "Paris",
      Call.httpGet (weatherUrl "48.85" "2.35" "en"),
      Call.newClient, Call.translate "en" "Current city is ",
      Call.newClient, Call.translate "en" "Main",
      Call.newClient, Call.translate "en" "Description",
      Call.newClient, Call.translate "en" "Clouds"]
    parisRequest
    { FulfillmentMessages :=
      [{ Text := { Text := ["Current city is ParisMainCloudsDescriptionovercast clouds"] } }] }
    rfl rfl).2

/-- C10: `weatherQuery` returns no error on any run on which it returns.  For
a decoded request with display name `weather`, `HandleWebhookRequest`
therefore hands the response to the encoder whenever `weatherQuery` returns,
and otherwise ends as `weatherQuery` does, in `log.Fatal` or in a panic, with
nothing written to the carrier: `handleError` is not reached from the result
of the switch. -/
theorem weather_returns_no_error {F Tag : Type} (env : Env F Tag) (w : ResponseWriter) (r : String)
    (tr : List (Call Tag)) (request : webhookRequest)
    (hdec : env.decodeRequest r = Except.ok request)
    (hname : request.QueryResult.Intent.DisplayName = "weather") :
    (∀ (request0 : webhookRequest) (tr0 tr1 : List (Call Tag)) (response : webhookResponse)
        (err : Option String),
        weatherQuery env request0 tr0 = (Run.ret (response, err), tr1) → err = none)
    ∧ (match weatherQuery env request tr with
       | (Run.ret (response, _), tr1) =>
         HandleWebhookRequest env w r tr =
           { outcome := Run.ret (),
             w := (match env.encode tr1 response with
                   | none => w.Write (Written.json response)
                   | some err => handleError w err),
             calls := tr1 ++ [Call.encode response] }
       | (Run.fatal m, tr1) =>
         HandleWebhookRequest env w r tr = { outcome := Run.fatal m, w := w, calls := tr1 }
       | (Run.panic p, tr1) =>
         HandleWebhookRequest env w r tr = { outcome := Run.panic p, w := w, calls := tr1 }) := by
  refine ⟨fun request0 tr0 tr1 response err h =>
    (weatherQuery_ret_none env request0 tr0 tr1 response err h).1, ?_⟩
  have hdisp : dispatch env request tr = weatherQuery env request tr := by
    simp [dispatch, dispatchWith, handlers, hname]
  rw [HandleWebhookRequest_of_dispatch env w r tr request hdec, hdisp]
  rcases hq : weatherQuery env request tr with ⟨res, tr1⟩
  rcases res with ⟨response, err⟩ | m | q
  · obtain ⟨rfl, -⟩ := weatherQuery_ret_none env request tr tr1 response err hq
    rfl
  · rfl
  · rfl

/-- The scenario of C10 with city `Paris`, the tag `zh-CN` and a translation
that appends a star: `weatherQuery` returns, and the handler writes the
response with the default status. -/
theorem weather_returns_no_error_witness :
    (HandleWebhookRequest (parisEnv "zh-CN"
        [{ Main := "Clouds", Description := "overcast clouds" }] starTranslator)
      freshWriter "" []).w =
      { status := some 200, body := [Written.json { FulfillmentMessages :=
        [{ Text := { Text :=
          ["Current city is *ParisMain*Clouds*Description*overcast clouds"] } }] }] } :=
  congrArg Served.w (weather_returns_no_error (parisEnv "zh-CN"
      [{ Main := "Clouds", Description := "overcast clouds" }] starTranslator)
    freshWriter "" [] parisRequest rfl rfl).2

end Webhook
